import Mathlib

/-!
Shallow embedding of the WhatsApp webhook relay service
(main.py, routes/webhook.py, local_agents/openai_agent.py, utils/whatsapp_utils.py).

JSON payloads are modelled by an inductive `Json` type; the Python dynamic
accesses used by the handlers (subscript with a string key, subscript with an
integer index, the `dict.get` method, the `in` operator) are modelled as
functions returning `Except PyExc Json`, where `PyExc` covers the exception
classes the code can raise or catch.  Outbound effects (the OpenAI completion
call and the httpx POST) are oracle parameters, and the POST /webhook handler
returns the HTTP status it produces together with the ordered trace of
ResponseGenerator calls, MessageDispatcher calls and outbound platform posts.
-/

/-- Python exception classes relevant to the code paths under study. -/
inductive PyExc where
  | keyError
  | indexError
  | typeError
  | attributeError
  | httpStatusError
  | connectionError
  | jsonDecodeError
deriving Repr, DecidableEq

/-- JSON values, as produced by `await request.json()`. -/
inductive Json where
  | null
  | str (s : String)
  | num (n : Int)
  | bool (b : Bool)
  | arr (elems : List Json)
  | obj (fields : List (String × Json))

/-- Key lookup in an object field list (Python dict keys are unique). -/
def Json.lookup : List (String × Json) → String → Option Json
  | [], _ => none
  | (k, v) :: rest, key => if k = key then some v else Json.lookup rest key

/-- Python `d.get(key)`: `None` for a missing key, `AttributeError` when the
receiver is not a dict. -/
def Json.pyGet : Json → String → Except PyExc Json
  | Json.obj fields, key =>
      match Json.lookup fields key with
      | some v => Except.ok v
      | none => Except.ok Json.null
  | _, _ => Except.error PyExc.attributeError

/-- Python `x[key]` with a string key: `KeyError` on a dict missing the key,
`TypeError` on lists, strings and scalars. -/
def Json.getItemStr : Json → String → Except PyExc Json
  | Json.obj fields, key =>
      match Json.lookup fields key with
      | some v => Except.ok v
      | none => Except.error PyExc.keyError
  | _, _ => Except.error PyExc.typeError

/-- Python `x[i]` with an integer index: `IndexError` past the end of a list
or string, `KeyError` on a dict (JSON object keys are strings, so an integer
key is never present), `TypeError` on scalars. -/
def Json.getItemNat : Json → Nat → Except PyExc Json
  | Json.arr xs, i =>
      match xs[i]? with
      | some v => Except.ok v
      | none => Except.error PyExc.indexError
  | Json.obj _, _ => Except.error PyExc.keyError
  | Json.str s, i =>
      match s.toList[i]? with
      | some c => Except.ok (Json.str (String.mk [c]))
      | none => Except.error PyExc.indexError
  | _, _ => Except.error PyExc.typeError

/-- Python `value == "literal"`: true exactly when the value is that string
(no cross-type equality holds against a string). -/
def Json.isStrEq : Json → String → Bool
  | Json.str t, s => t == s
  | _, _ => false

/-- Whether `pat` occurs as a substring of `s` (Python `pat in s`). -/
def strContainsSub (s pat : String) : Bool := (s.splitOn pat).length != 1

/-- Python `key in value`: key containment for dicts, membership for lists,
substring test for strings, `TypeError` for scalars. -/
def Json.pyContains : Json → String → Except PyExc Bool
  | Json.obj fields, key => Except.ok (Json.lookup fields key).isSome
  | Json.arr xs, key => Except.ok (xs.any (fun j => j.isStrEq key))
  | Json.str s, key => Except.ok (strContainsSub s key)
  | _, _ => Except.error PyExc.typeError

/-- Python truthiness of an `Optional[str]`: `None` and the empty string are
falsy, every other string is truthy. -/
def truthy : Option String → Bool
  | none => false
  | some s => !(s == "")

/-- GET /webhook handler `verify_webhook` (main.py lines 125 to 139 and
routes/webhook.py lines 12 to 23).  Inputs are the configured VERIFY_TOKEN
secret and the three query parameters; the result is the status code paired
with the response body. -/
def verify_webhook (verifyToken mode token challenge : Option String) :
    Nat × Option String :=
  if truthy mode && truthy token then
    if mode = some "subscribe" ∧ token = verifyToken then (200, challenge)
    else (403, none)
  else (400, none)

/-- Fallback returned by `get_openai_response` when the API key is unset. -/
def noKeyFallback : String := "Sorry, I can't connect to my brain right now."

/-- Fallback returned by `get_openai_response` when the provider call raises. -/
def errorFallback : String := "I encountered an error. Please try again later."

/-- ResponseGenerator `get_openai_response` (main.py lines 64 to 87 and
local_agents/openai_agent.py).  The completion call, including the
`completion.choices[0].message.content` access, is the oracle `provider`;
any exception it raises is caught by the bare `except Exception` and mapped
to the fixed error fallback, and a falsy API key short-circuits to the
no-key fallback without calling the provider. -/
def get_openai_response (apiKey : Option String)
    (provider : Json → Except PyExc String) (message : Json) : String :=
  if truthy apiKey = false then noKeyFallback
  else
    match provider message with
    | Except.ok t => t
    | Except.error _ => errorFallback

/-- Result of one httpx POST: a response with a status code and a flag for
whether its body parses as JSON, or a network-level failure. -/
inductive PostResult where
  | response (statusCode : Nat) (jsonOk : Bool)
  | netError

/-- The JSON payload built by `send_whatsapp_message`. -/
def whatsapp_payload (toNumber : Json) (message : String) : Json :=
  Json.obj [("messaging_product", Json.str "whatsapp"),
    ("to", toNumber),
    ("type", Json.str "text"),
    ("text", Json.obj [("body", Json.str message)])]

/-- The try-block body of `send_whatsapp_message`: the POST itself, then
`response.raise_for_status()` (raises `HTTPStatusError` on any non-2xx
status), then `response.json()` (raises on an unparseable body). -/
def send_attempt (net : Json → PostResult) (payload : Json) :
    Except PyExc Unit :=
  match net payload with
  | PostResult.netError => Except.error PyExc.connectionError
  | PostResult.response code jsonOk =>
      if code < 200 ∨ 300 ≤ code then Except.error PyExc.httpStatusError
      else if jsonOk = false then Except.error PyExc.jsonDecodeError
      else Except.ok ()

/-- MessageDispatcher `send_whatsapp_message` (main.py lines 90 to 114): one
POST through the shared client, with `except httpx.HTTPStatusError` and a
bare `except Exception` that both only log.  The result is the list of
payloads posted paired with the outcome of the call (an `Except.error` here
would mean an exception escaping to the caller). -/
def send_whatsapp_message (net : Json → PostResult) (toNumber : Json)
    (message : String) : List Json × Except PyExc Unit :=
  match send_attempt net (whatsapp_payload toNumber message) with
  | Except.ok _ => ([whatsapp_payload toNumber message], Except.ok ())
  | Except.error PyExc.httpStatusError =>
      ([whatsapp_payload toNumber message], Except.ok ())
  | Except.error _ => ([whatsapp_payload toNumber message], Except.ok ())

/-- Events observable from the POST /webhook handler: a call into
`get_openai_response`, a call into `send_whatsapp_message`, and an actual
outbound POST to the messaging platform. -/
inductive Event where
  | generateCall (message : Json)
  | sendCall (toNumber : Json) (body : String)
  | post (payload : Json)

/-- The descent `body["entry"][0]["changes"][0]["value"]` guarded by
`try ... except (KeyError, IndexError)` in the handler (main.py line 155). -/
def extractValue (body : Json) : Except PyExc Json :=
  match body.getItemStr "entry" with
  | Except.error e => Except.error e
  | Except.ok entry =>
      match entry.getItemNat 0 with
      | Except.error e => Except.error e
      | Except.ok entry0 =>
          match entry0.getItemStr "changes" with
          | Except.error e => Except.error e
          | Except.ok changes =>
              match changes.getItemNat 0 with
              | Except.error e => Except.error e
              | Except.ok change0 => change0.getItemStr "value"

/-- The part of `handle_webhook` after `value` has been extracted
(main.py lines 160 to 179): the statuses branch logs
`status_data["id"]` and `status_data["status"]` and acknowledges; the
messages branch, for a `text` type tag, reads `from` and `text.body`,
generates a reply and dispatches it; everything else acknowledges with 200.
All accesses here are outside the try block, so their exceptions escape. -/
def handle_value (apiKey : Option String)
    (provider : Json → Except PyExc String) (net : Json → PostResult)
    (value : Json) : Except PyExc (Nat × List Event) :=
  match value.pyContains "statuses" with
  | Except.error e => Except.error e
  | Except.ok true =>
      match value.getItemStr "statuses" with
      | Except.error e => Except.error e
      | Except.ok sts =>
          match sts.getItemNat 0 with
          | Except.error e => Except.error e
          | Except.ok s0 =>
              match s0.getItemStr "id" with
              | Except.error e => Except.error e
              | Except.ok _ =>
                  match s0.getItemStr "status" with
                  | Except.error e => Except.error e
                  | Except.ok _ => Except.ok (200, [])
  | Except.ok false =>
      match value.pyContains "messages" with
      | Except.error e => Except.error e
      | Except.ok false => Except.ok (200, [])
      | Except.ok true =>
          match value.getItemStr "messages" with
          | Except.error e => Except.error e
          | Except.ok msgs =>
              match msgs.getItemNat 0 with
              | Except.error e => Except.error e
              | Except.ok m0 =>
                  match m0.pyGet "type" with
                  | Except.error e => Except.error e
                  | Except.ok ty =>
                      if ty.isStrEq "text" then
                        match m0.getItemStr "from" with
                        | Except.error e => Except.error e
                        | Except.ok fromNumber =>
                            match m0.getItemStr "text" with
                            | Except.error e => Except.error e
                            | Except.ok txt =>
                                match txt.getItemStr "body" with
                                | Except.error e => Except.error e
                                | Except.ok msgBody =>
                                    match (send_whatsapp_message net fromNumber
                                        (get_openai_response apiKey provider msgBody)).2 with
                                    | Except.error e => Except.error e
                                    | Except.ok _ =>
                                        Except.ok (200,
                                          Event.generateCall msgBody ::
                                          Event.sendCall fromNumber
                                            (get_openai_response apiKey provider msgBody) ::
                                          (send_whatsapp_message net fromNumber
                                            (get_openai_response apiKey provider msgBody)).1.map
                                              Event.post)
                      else Except.ok (200, [])

/-- POST /webhook handler `handle_webhook` (main.py lines 141 to 179 and
routes/webhook.py lines 25 to 51): 404 when `body.get("object")` is not the
business-account marker; then the guarded descent to `value`, where only
`KeyError` and `IndexError` are converted into a 200 acknowledgement; then
`handle_value`.  An `Except.error` result models an exception escaping the
handler (the framework turns it into a 500 server error). -/
def handle_webhook (apiKey : Option String)
    (provider : Json → Except PyExc String) (net : Json → PostResult)
    (body : Json) : Except PyExc (Nat × List Event) :=
  match body.pyGet "object" with
  | Except.error e => Except.error e
  | Except.ok objField =>
      if objField.isStrEq "whatsapp_business_account" then
        match extractValue body with
        | Except.ok value => handle_value apiKey provider net value
        | Except.error e =>
            if e = PyExc.keyError ∨ e = PyExc.indexError then Except.ok (200, [])
            else Except.error e
      else Except.ok (404, [])

/-- Client lifecycle events of the process (main.py lines 36 to 47 and
utils/whatsapp_utils.py lines 100 and following of the concatenated
sources). -/
inductive NetEvent where
  | clientCreate
  | clientClose
  | post (payload : Json)

/-- Number of network-client creations in a trace. -/
def countClientCreates : List NetEvent → Nat
  | [] => 0
  | NetEvent.clientCreate :: rest => countClientCreates rest + 1
  | _ :: rest => countClientCreates rest

/-- The `utils/whatsapp_utils.py` variant of `send_whatsapp_message`: it opens
`async with httpx.AsyncClient() as client` inside the call, so every
invocation creates and closes a fresh network client around its single POST;
both except clauses only log, exactly as in the main.py variant. -/
def utils_send_whatsapp_message (net : Json → PostResult) (toNumber : Json)
    (message : String) : List NetEvent × Except PyExc Unit :=
  match send_attempt net (whatsapp_payload toNumber message) with
  | Except.ok _ =>
      ([NetEvent.clientCreate, NetEvent.post (whatsapp_payload toNumber message),
        NetEvent.clientClose], Except.ok ())
  | Except.error PyExc.httpStatusError =>
      ([NetEvent.clientCreate, NetEvent.post (whatsapp_payload toNumber message),
        NetEvent.clientClose], Except.ok ())
  | Except.error _ =>
      ([NetEvent.clientCreate, NetEvent.post (whatsapp_payload toNumber message),
        NetEvent.clientClose], Except.ok ())

/-- Client lifecycle events of main.py startup: one httpx client and one
OpenAI client are created and stored on the app state. -/
inductive ClientEvent where
  | createHttpxClient
  | createOpenaiClient
  | closeHttpxClient
  | closeOpenaiClient
deriving Repr, DecidableEq

/-- main.py `startup_event` (lines 36 to 41). -/
def startup_event : List ClientEvent :=
  [ClientEvent.createHttpxClient, ClientEvent.createOpenaiClient]

/-- main.py `shutdown_event` (lines 43 to 47). -/
def shutdown_event : List ClientEvent :=
  [ClientEvent.closeHttpxClient, ClientEvent.closeOpenaiClient]

/-- Helper to build a POST body whose first entry and first change carry the
given `value` object. -/
def wrapValue (value : Json) : Json :=
  Json.obj [("object", Json.str "whatsapp_business_account"),
    ("entry", Json.arr [Json.obj [("changes",
      Json.arr [Json.obj [("value", value)]])]])]

/-- A well-formed inbound text message record. -/
def textMessage0 : Json :=
  Json.obj [("type", Json.str "text"), ("from", Json.str "15551234567"),
    ("text", Json.obj [("body", Json.str "hi")])]

/-- A provider oracle that always succeeds with a fixed reply. -/
def okProvider : Json → Except PyExc String :=
  fun _ => Except.ok "Hello! How can I help?"

/-- A provider oracle that always fails with a network error. -/
def errProvider : Json → Except PyExc String :=
  fun _ => Except.error PyExc.connectionError

/-- A network oracle whose POSTs succeed with a parseable 200 response. -/
def ok200Net : Json → PostResult := fun _ => PostResult.response 200 true

/-- A network oracle whose POSTs come back with a 500 status. -/
def err500Net : Json → PostResult := fun _ => PostResult.response 500 true

/-- The concrete scenario body from the spec: one text message, no statuses. -/
def scenarioBody : Json :=
  wrapValue (Json.obj [("messages", Json.arr [textMessage0])])

/-- A body whose value carries both a well-formed status update and a
well-formed text message. -/
def mixedBody : Json :=
  wrapValue (Json.obj [("statuses", Json.arr [Json.obj [("id", Json.str "wamid.1"),
      ("status", Json.str "delivered")]]),
    ("messages", Json.arr [textMessage0])])

/-- A body whose value carries an empty statuses list. -/
def emptyStatusesBody : Json :=
  wrapValue (Json.obj [("statuses", Json.arr [])])

/-- A body whose value carries a status record missing its id field. -/
def statusNoIdBody : Json :=
  wrapValue (Json.obj [("statuses", Json.arr [Json.obj [("status", Json.str "sent")]])])

/-- A body with a well-formed status update and no messages. -/
def statusBody : Json :=
  wrapValue (Json.obj [("statuses", Json.arr [Json.obj [("id", Json.str "wamid.X"),
    ("status", Json.str "delivered")]])])

/-- A recognized body with no entry key at all. -/
def noEntryBody : Json := Json.obj [("object", Json.str "whatsapp_business_account")]

/-- A body with a wrong top-level discriminator. -/
def otherObjectBody : Json := Json.obj [("object", Json.str "some_other_page")]

/-- Both except clauses of send_whatsapp_message only log, so the call always
returns normally after exactly one POST of the WhatsApp payload, whatever the
network outcome. -/
theorem send_whatsapp_message_eq (net : Json → PostResult) (toNumber : Json)
    (message : String) :
    send_whatsapp_message net toNumber message =
      ([whatsapp_payload toNumber message], Except.ok ()) := by
  unfold send_whatsapp_message
  cases h : send_attempt net (whatsapp_payload toNumber message) with
  | ok u => rfl
  | error e => cases e <;> rfl

/-- Text-message path of handle_value: the trace is one generate call, then
one send call to the sender with the generated text, then the single POST
performed inside the send; the status is 200. -/
theorem handle_value_text (apiKey : Option String)
    (provider : Json → Except PyExc String) (net : Json → PostResult)
    (value msgs m0 fromNumber txt msgBody : Json)
    (hs : value.pyContains "statuses" = Except.ok false)
    (hm : value.pyContains "messages" = Except.ok true)
    (h5 : value.getItemStr "messages" = Except.ok msgs)
    (h6 : msgs.getItemNat 0 = Except.ok m0)
    (h7 : m0.pyGet "type" = Except.ok (Json.str "text"))
    (h8 : m0.getItemStr "from" = Except.ok fromNumber)
    (h9 : m0.getItemStr "text" = Except.ok txt)
    (h10 : txt.getItemStr "body" = Except.ok msgBody) :
    handle_value apiKey provider net value =
      Except.ok (200,
        [Event.generateCall msgBody,
         Event.sendCall fromNumber (get_openai_response apiKey provider msgBody),
         Event.post (whatsapp_payload fromNumber
           (get_openai_response apiKey provider msgBody))]) := by
  simp only [handle_value, hs, hm, h5, h6, h7, h8, h9, h10, Json.isStrEq,
    beq_self_eq_true, if_true, send_whatsapp_message_eq, List.map]

/-- Text-message path of the whole POST handler. -/
theorem handle_webhook_text_path (apiKey : Option String)
    (provider : Json → Except PyExc String) (net : Json → PostResult)
    (body value msgs m0 fromNumber txt msgBody : Json)
    (h1 : body.pyGet "object" = Except.ok (Json.str "whatsapp_business_account"))
    (h2 : extractValue body = Except.ok value)
    (hs : value.pyContains "statuses" = Except.ok false)
    (hm : value.pyContains "messages" = Except.ok true)
    (h5 : value.getItemStr "messages" = Except.ok msgs)
    (h6 : msgs.getItemNat 0 = Except.ok m0)
    (h7 : m0.pyGet "type" = Except.ok (Json.str "text"))
    (h8 : m0.getItemStr "from" = Except.ok fromNumber)
    (h9 : m0.getItemStr "text" = Except.ok txt)
    (h10 : txt.getItemStr "body" = Except.ok msgBody) :
    handle_webhook apiKey provider net body =
      Except.ok (200,
        [Event.generateCall msgBody,
         Event.sendCall fromNumber (get_openai_response apiKey provider msgBody),
         Event.post (whatsapp_payload fromNumber
           (get_openai_response apiKey provider msgBody))]) := by
  unfold handle_webhook
  rw [h1, h2]
  simp only [Json.isStrEq, beq_self_eq_true, if_true]
  exact handle_value_text apiKey provider net value msgs m0 fromNumber txt msgBody
    hs hm h5 h6 h7 h8 h9 h10

/-- C2: GET /webhook handshake.  A query parameter is present when it is
supplied and non-empty (the code tests Python truthiness, and claim C10
records that an empty parameter behaves like an absent one).  With both
present, a subscribe mode and a token equal to the configured secret yield
200 with the challenge verbatim, any other combination yields 403; with
either parameter absent the status is 400. -/
theorem verify_webhook_handshake (vt mode token ch : Option String) :
    ((truthy mode = true ∧ truthy token = true) →
      (((mode = some "subscribe" ∧ token = vt) →
          verify_webhook vt mode token ch = (200, ch)) ∧
       (¬(mode = some "subscribe" ∧ token = vt) →
          verify_webhook vt mode token ch = (403, none)))) ∧
    (¬(truthy mode = true ∧ truthy token = true) →
      verify_webhook vt mode token ch = (400, none)) := by
  constructor
  · rintro ⟨hm, ht⟩
    constructor
    · intro hc
      obtain ⟨hc1, hc2⟩ := hc
      subst hc1
      subst hc2
      simp [verify_webhook, hm, ht]
    · intro hc
      simp [verify_webhook, hm, ht, hc]
  · intro hnot
    have hfalse : (truthy mode && truthy token) = false := by
      cases hm : truthy mode <;> cases ht : truthy token <;> simp_all
    simp [verify_webhook, hfalse]

/-- C2 witness: a concrete successful handshake obtained from the theorem. -/
theorem verify_webhook_handshake_witness :
    verify_webhook (some "s3cr3t") (some "subscribe") (some "s3cr3t") (some "ch") =
      (200, some "ch") :=
  ((verify_webhook_handshake (some "s3cr3t") (some "subscribe") (some "s3cr3t")
      (some "ch")).1 ⟨rfl, rfl⟩).1 ⟨rfl, rfl⟩

/-- C9: with the VERIFY_TOKEN secret unset, any handshake with non-empty mode
and token parameters is rejected with 403: a non-empty token never equals an
unset secret. -/
theorem verify_webhook_unset_secret (mode token ch : Option String)
    (hm : truthy mode = true) (ht : truthy token = true) :
    (verify_webhook none mode token ch).1 = 403 := by
  have hne : ¬(mode = some "subscribe" ∧ token = (none : Option String)) := by
    rintro ⟨-, rfl⟩
    simp [truthy] at ht
  simp [verify_webhook, hm, ht, hne]

/-- C9 witness: a concrete handshake against an unset secret. -/
theorem verify_webhook_unset_secret_witness :
    (verify_webhook none (some "subscribe") (some "anything") (some "ch")).1 = 403 :=
  verify_webhook_unset_secret (some "subscribe") (some "anything") (some "ch") rfl rfl

/-- C10: an empty-string mode or verify-token parameter is treated exactly
like an absent one: the response is 400 with an empty body, identical to the
response with that parameter removed, even when the other parameter matches
the configured secret. -/
theorem verify_webhook_empty_param_as_absent (vt mode token ch : Option String)
    (h : mode = some "" ∨ token = some "") :
    verify_webhook vt mode token ch = (400, none) ∧
    verify_webhook vt mode token ch =
      verify_webhook vt (if mode = some "" then none else mode)
        (if token = some "" then none else token) ch := by
  rcases h with rfl | rfl
  · by_cases htk : token = some "" <;> simp [verify_webhook, truthy, htk]
  · by_cases hmd : mode = some "" <;>
      cases hmode : truthy mode <;>
        simp_all [verify_webhook, truthy]

/-- C10 witness: empty mode with a token that matches the secret still gives
400, the same as with the mode parameter absent. -/
theorem verify_webhook_empty_param_as_absent_witness :
    verify_webhook (some "tok") (some "") (some "tok") (some "ch") = (400, none) :=
  (verify_webhook_empty_param_as_absent (some "tok") (some "") (some "tok") (some "ch")
    (Or.inl rfl)).1

/-- C6: a POST body whose object field is not the business-account marker is
answered with 404 and an empty trace: no ResponseGenerator call, no
MessageDispatcher call, no outbound POST. -/
theorem handle_webhook_wrong_object (apiKey : Option String)
    (provider : Json → Except PyExc String) (net : Json → PostResult)
    (body v : Json)
    (hv : body.pyGet "object" = Except.ok v)
    (hne : v.isStrEq "whatsapp_business_account" = false) :
    handle_webhook apiKey provider net body = Except.ok (404, []) := by
  simp [handle_webhook, hv, hne]

/-- C6 witness: a concrete body with a wrong discriminator. -/
theorem handle_webhook_wrong_object_witness :
    handle_webhook (some "key") okProvider ok200Net otherObjectBody =
      Except.ok (404, []) :=
  handle_webhook_wrong_object (some "key") okProvider ok200Net otherObjectBody
    (Json.str "some_other_page") rfl rfl

/-- C3 counterexample: a recognized body whose value holds an empty statuses
list.  The access value["statuses"][0] is outside the try block, so the
IndexError escapes the handler and the platform sees a 500 server error, not
the 200 the claim requires. -/
theorem handle_webhook_empty_statuses_raises :
    handle_webhook (some "key") okProvider ok200Net emptyStatusesBody =
      Except.error PyExc.indexError := rfl

/-- C3 (amended): only the descent into entry[0].changes[0].value is guarded;
a KeyError or IndexError raised there is treated as malformed input, with a
200 acknowledgement and no generate or send action.  Accesses into the
statuses or messages collections and their first elements happen outside the
try block and their exceptions escape as server errors. -/
theorem handle_webhook_malformed_descent_acknowledged (apiKey : Option String)
    (provider : Json → Except PyExc String) (net : Json → PostResult)
    (body : Json) (e : PyExc)
    (h1 : body.pyGet "object" = Except.ok (Json.str "whatsapp_business_account"))
    (h2 : extractValue body = Except.error e)
    (h3 : e = PyExc.keyError ∨ e = PyExc.indexError) :
    handle_webhook apiKey provider net body = Except.ok (200, []) := by
  rcases h3 with rfl | rfl <;> simp [handle_webhook, h1, h2, Json.isStrEq]

/-- C3 witness: a recognized body with no entry key acknowledges with 200. -/
theorem handle_webhook_malformed_descent_acknowledged_witness :
    handle_webhook (some "key") okProvider ok200Net noEntryBody =
      Except.ok (200, []) :=
  handle_webhook_malformed_descent_acknowledged (some "key") okProvider ok200Net
    noEntryBody PyExc.keyError rfl rfl (Or.inl rfl)

/-- C7 counterexample: a body whose first status record has no id field.  The
claim asks for 200 with no calls, but status_data["id"] is evaluated outside
the try block and the KeyError escapes as a server error. -/
theorem handle_webhook_statuses_missing_id_raises :
    handle_webhook (some "key") okProvider ok200Net statusNoIdBody =
      Except.error PyExc.keyError := rfl

/-- C7 (amended): a recognized body whose value holds a statuses collection
whose first element carries id and status fields, and no messages collection,
is acknowledged with 200 and an empty trace: no ResponseGenerator call and no
MessageDispatcher call. -/
theorem handle_webhook_statuses_path (apiKey : Option String)
    (provider : Json → Except PyExc String) (net : Json → PostResult)
    (body value sts s0 idVal stVal : Json)
    (h1 : body.pyGet "object" = Except.ok (Json.str "whatsapp_business_account"))
    (h2 : extractValue body = Except.ok value)
    (h3 : value.pyContains "statuses" = Except.ok true)
    (hnm : value.pyContains "messages" = Except.ok false)
    (h4 : value.getItemStr "statuses" = Except.ok sts)
    (h5 : sts.getItemNat 0 = Except.ok s0)
    (h6 : s0.getItemStr "id" = Except.ok idVal)
    (h7 : s0.getItemStr "status" = Except.ok stVal) :
    handle_webhook apiKey provider net body = Except.ok (200, []) := by
  simp only [handle_webhook, handle_value, h1, h2, h3, h4, h5, h6, h7,
    Json.isStrEq, beq_self_eq_true, if_true]

/-- C7 witness: a concrete well-formed status update body. -/
theorem handle_webhook_statuses_path_witness :
    handle_webhook (some "key") okProvider ok200Net statusBody =
      Except.ok (200, []) :=
  handle_webhook_statuses_path (some "key") okProvider ok200Net statusBody
    (Json.obj [("statuses", Json.arr [Json.obj [("id", Json.str "wamid.X"),
      ("status", Json.str "delivered")]])])
    (Json.arr [Json.obj [("id", Json.str "wamid.X"), ("status", Json.str "delivered")]])
    (Json.obj [("id", Json.str "wamid.X"), ("status", Json.str "delivered")])
    (Json.str "wamid.X") (Json.str "delivered")
    rfl rfl rfl rfl rfl rfl rfl rfl

/-- C1 counterexample: a body that satisfies the claim premise in full (its
first entry/change/value holds a messages collection whose first element has
type tag text, a sender id and a text body) but also holds a statuses
collection.  The statuses branch returns first, so the handler makes no
generate call and no send call, refuting the claimed exactly-one pipeline. -/
theorem handle_webhook_text_message_statuses_precedence :
    (mixedBody.pyGet "object" = Except.ok (Json.str "whatsapp_business_account") ∧
     extractValue mixedBody = Except.ok (Json.obj
       [("statuses", Json.arr [Json.obj [("id", Json.str "wamid.1"),
          ("status", Json.str "delivered")]]),
        ("messages", Json.arr [textMessage0])]) ∧
     (Json.obj
       [("statuses", Json.arr [Json.obj [("id", Json.str "wamid.1"),
          ("status", Json.str "delivered")]]),
        ("messages", Json.arr [textMessage0])]).getItemStr "messages" =
       Except.ok (Json.arr [textMessage0]) ∧
     (Json.arr [textMessage0]).getItemNat 0 = Except.ok textMessage0 ∧
     textMessage0.pyGet "type" = Except.ok (Json.str "text") ∧
     textMessage0.getItemStr "from" = Except.ok (Json.str "15551234567") ∧
     textMessage0.getItemStr "text" = Except.ok (Json.obj [("body", Json.str "hi")]) ∧
     (Json.obj [("body", Json.str "hi")]).getItemStr "body" = Except.ok (Json.str "hi")) ∧
    handle_webhook (some "key") okProvider ok200Net mixedBody = Except.ok (200, []) :=
  ⟨⟨rfl, rfl, rfl, rfl, rfl, rfl, rfl, rfl⟩, rfl⟩

/-- C1 (amended): for a recognized body whose first entry/change/value holds
no statuses collection and holds a messages collection whose first element
has type tag text, a sender id and a text body, the handler makes exactly one
ResponseGenerator call followed by exactly one MessageDispatcher call, in
that order, the recipient of the dispatcher equal to the sender id of the
message and the dispatched body equal to the generated text, and responds
200. -/
theorem handle_webhook_text_message_pipeline (apiKey : Option String)
    (provider : Json → Except PyExc String) (net : Json → PostResult)
    (body value msgs m0 fromNumber txt msgBody : Json)
    (h1 : body.pyGet "object" = Except.ok (Json.str "whatsapp_business_account"))
    (h2 : extractValue body = Except.ok value)
    (hs : value.pyContains "statuses" = Except.ok false)
    (hm : value.pyContains "messages" = Except.ok true)
    (h5 : value.getItemStr "messages" = Except.ok msgs)
    (h6 : msgs.getItemNat 0 = Except.ok m0)
    (h7 : m0.pyGet "type" = Except.ok (Json.str "text"))
    (h8 : m0.getItemStr "from" = Except.ok fromNumber)
    (h9 : m0.getItemStr "text" = Except.ok txt)
    (h10 : txt.getItemStr "body" = Except.ok msgBody) :
    handle_webhook apiKey provider net body =
      Except.ok (200,
        [Event.generateCall msgBody,
         Event.sendCall fromNumber (get_openai_response apiKey provider msgBody),
         Event.post (whatsapp_payload fromNumber
           (get_openai_response apiKey provider msgBody))]) :=
  handle_webhook_text_path apiKey provider net body value msgs m0 fromNumber txt msgBody
    h1 h2 hs hm h5 h6 h7 h8 h9 h10

/-- C1 witness: the concrete scenario of the spec, a text message "hi" from
15551234567 with a provider that replies with a fixed greeting. -/
theorem handle_webhook_text_message_pipeline_witness :
    handle_webhook (some "key") okProvider ok200Net scenarioBody =
      Except.ok (200,
        [Event.generateCall (Json.str "hi"),
         Event.sendCall (Json.str "15551234567") "Hello! How can I help?",
         Event.post (whatsapp_payload (Json.str "15551234567")
           "Hello! How can I help?")]) :=
  handle_webhook_text_message_pipeline (some "key") okProvider ok200Net scenarioBody
    (Json.obj [("messages", Json.arr [textMessage0])]) (Json.arr [textMessage0])
    textMessage0 (Json.str "15551234567") (Json.obj [("body", Json.str "hi")])
    (Json.str "hi") rfl rfl rfl rfl rfl rfl rfl rfl rfl rfl

/-- C4: when the ResponseGenerator fails, either because the provider call
raises (network error, malformed response) or because the credential is
missing, get_openai_response returns one of its two fixed user-facing
fallback strings instead of propagating the failure, and the handler still
invokes the MessageDispatcher with that fallback string as the body. -/
theorem get_openai_response_failure_fallback (apiKey : Option String)
    (provider : Json → Except PyExc String) (net : Json → PostResult)
    (body value msgs m0 fromNumber txt msgBody : Json)
    (h1 : body.pyGet "object" = Except.ok (Json.str "whatsapp_business_account"))
    (h2 : extractValue body = Except.ok value)
    (hs : value.pyContains "statuses" = Except.ok false)
    (hm : value.pyContains "messages" = Except.ok true)
    (h5 : value.getItemStr "messages" = Except.ok msgs)
    (h6 : msgs.getItemNat 0 = Except.ok m0)
    (h7 : m0.pyGet "type" = Except.ok (Json.str "text"))
    (h8 : m0.getItemStr "from" = Except.ok fromNumber)
    (h9 : m0.getItemStr "text" = Except.ok txt)
    (h10 : txt.getItemStr "body" = Except.ok msgBody)
    (hfail : truthy apiKey = false ∨ ∃ e, provider msgBody = Except.error e) :
    ∃ fb, (fb = errorFallback ∨ fb = noKeyFallback) ∧
      get_openai_response apiKey provider msgBody = fb ∧
      handle_webhook apiKey provider net body =
        Except.ok (200,
          [Event.generateCall msgBody, Event.sendCall fromNumber fb,
           Event.post (whatsapp_payload fromNumber fb)]) := by
  refine ⟨get_openai_response apiKey provider msgBody, ?_, rfl,
    handle_webhook_text_path apiKey provider net body value msgs m0 fromNumber txt
      msgBody h1 h2 hs hm h5 h6 h7 h8 h9 h10⟩
  rcases hfail with hk | ⟨e, he⟩
  · right
    simp [get_openai_response, hk]
  · cases hkey : truthy apiKey with
    | false =>
        right
        simp [get_openai_response, hkey]
    | true =>
        left
        simp [get_openai_response, hkey, he]

/-- C4 witness: a provider that always raises a connection error still leads
to a dispatch of the fixed fallback string for the scenario body. -/
theorem get_openai_response_failure_fallback_witness :
    ∃ fb, (fb = errorFallback ∨ fb = noKeyFallback) ∧
      get_openai_response (some "key") errProvider (Json.str "hi") = fb ∧
      handle_webhook (some "key") errProvider ok200Net scenarioBody =
        Except.ok (200,
          [Event.generateCall (Json.str "hi"),
           Event.sendCall (Json.str "15551234567") fb,
           Event.post (whatsapp_payload (Json.str "15551234567") fb)]) :=
  get_openai_response_failure_fallback (some "key") errProvider ok200Net scenarioBody
    (Json.obj [("messages", Json.arr [textMessage0])]) (Json.arr [textMessage0])
    textMessage0 (Json.str "15551234567") (Json.obj [("body", Json.str "hi")])
    (Json.str "hi") rfl rfl rfl rfl rfl rfl rfl rfl rfl rfl
    (Or.inr ⟨PyExc.connectionError, rfl⟩)

/-- C5: when the outbound send attempt for the generated reply fails (non-2xx
platform response, unparseable response body or network-level error),
send_whatsapp_message still posts exactly once, catches the failure and
returns normally, and the POST handler still responds 200 with the full
generate-then-send trace. -/
theorem send_whatsapp_message_failure_contained (apiKey : Option String)
    (provider : Json → Except PyExc String) (net : Json → PostResult)
    (body value msgs m0 fromNumber txt msgBody : Json) (e : PyExc)
    (h1 : body.pyGet "object" = Except.ok (Json.str "whatsapp_business_account"))
    (h2 : extractValue body = Except.ok value)
    (hs : value.pyContains "statuses" = Except.ok false)
    (hm : value.pyContains "messages" = Except.ok true)
    (h5 : value.getItemStr "messages" = Except.ok msgs)
    (h6 : msgs.getItemNat 0 = Except.ok m0)
    (h7 : m0.pyGet "type" = Except.ok (Json.str "text"))
    (h8 : m0.getItemStr "from" = Except.ok fromNumber)
    (h9 : m0.getItemStr "text" = Except.ok txt)
    (h10 : txt.getItemStr "body" = Except.ok msgBody)
    (hfail : send_attempt net (whatsapp_payload fromNumber
        (get_openai_response apiKey provider msgBody)) = Except.error e) :
    send_whatsapp_message net fromNumber (get_openai_response apiKey provider msgBody) =
      ([whatsapp_payload fromNumber (get_openai_response apiKey provider msgBody)],
        Except.ok ()) ∧
    handle_webhook apiKey provider net body =
      Except.ok (200,
        [Event.generateCall msgBody,
         Event.sendCall fromNumber (get_openai_response apiKey provider msgBody),
         Event.post (whatsapp_payload fromNumber
           (get_openai_response apiKey provider msgBody))]) :=
  ⟨send_whatsapp_message_eq net fromNumber (get_openai_response apiKey provider msgBody),
   handle_webhook_text_path apiKey provider net body value msgs m0 fromNumber txt
     msgBody h1 h2 hs hm h5 h6 h7 h8 h9 h10⟩

/-- C5 witness: a network that answers every POST with a 500 status; the send
for the scenario message is attempted once, contained, and the webhook POST
still responds 200. -/
theorem send_whatsapp_message_failure_contained_witness :
    send_whatsapp_message err500Net (Json.str "15551234567")
        (get_openai_response (some "key") okProvider (Json.str "hi")) =
      ([whatsapp_payload (Json.str "15551234567")
          (get_openai_response (some "key") okProvider (Json.str "hi"))],
        Except.ok ()) ∧
    handle_webhook (some "key") okProvider err500Net scenarioBody =
      Except.ok (200,
        [Event.generateCall (Json.str "hi"),
         Event.sendCall (Json.str "15551234567")
           (get_openai_response (some "key") okProvider (Json.str "hi")),
         Event.post (whatsapp_payload (Json.str "15551234567")
           (get_openai_response (some "key") okProvider (Json.str "hi")))]) :=
  send_whatsapp_message_failure_contained (some "key") okProvider err500Net
    scenarioBody (Json.obj [("messages", Json.arr [textMessage0])])
    (Json.arr [textMessage0]) textMessage0 (Json.str "15551234567")
    (Json.obj [("body", Json.str "hi")]) (Json.str "hi") PyExc.httpStatusError
    rfl rfl rfl rfl rfl rfl rfl rfl rfl rfl rfl

/-- C8: the utils/whatsapp_utils.py variant of the MessageDispatcher opens a
fresh network client inside every single call (async with httpx.AsyncClient()
around its POST), so the program does create a network client per outbound
call, contrary to the claimed process-wide single-client invariant that
main.py establishes through startup_event and shutdown_event. -/
theorem utils_send_creates_client_each_call (net : Json → PostResult)
    (toNumber : Json) (message : String) :
    countClientCreates (utils_send_whatsapp_message net toNumber message).1 = 1 := by
  unfold utils_send_whatsapp_message
  cases h : send_attempt net (whatsapp_payload toNumber message) with
  | ok u => rfl
  | error e => cases e <;> rfl
